import Mathlib

/-!
Shallow embedding of the Sugar-Insulin-Tracker webapp's webhook relay,
data-access layer and form flows, with theorems checking the
specification's claims against the code.

Sources embedded:
  * the serverless webhook-proxy handler (`api/webhook-proxy.js`, reproduced
    in QA_REPORT.md);
  * `postToWebhook` / `createEmergency` in `src/hooks/useDatabase.ts`;
  * the demo-mode gate, duplicate-date flow in `src/pages/Forms.tsx`;
  * `handleSelect` / `handleRemove` in `src/components/ui/multi-select.tsx`;
  * `parseTelegramIds` / the telegram-id formatting in `onProfileSubmit`
    (Profile page).
-/

/-- JavaScript truthiness of an optional environment string:
`!x` is true when the variable is absent or the empty string. -/
def jsFalsy : Option String → Bool
  | none => true
  | some s => s.isEmpty

/-- Server configuration read by the proxy handler
(`process.env.N8N_WEBHOOK_URL`, `process.env.WEBHOOK_SECRET`). -/
structure ProxyConfig where
  n8nWebhookUrl : Option String
  webhookSecret : Option String
deriving DecidableEq, Repr

/-- The inbound HTTP request seen by the proxy handler: its method and
its JSON body (kept abstract as a string). -/
structure ProxyRequest where
  method : String
  body : String
deriving DecidableEq, Repr

/-- One outbound HTTP call issued by the relay: URL, method, the two
headers set by the code, and the body. -/
structure OutboundCall where
  url : String
  method : String
  contentType : String
  secretHeader : String
  body : String
deriving DecidableEq, Repr

/-- A response body produced by the proxy: either an error payload
(`\x7b error: msg \x7d`) or a passed-through JSON value. -/
inductive ProxyBody where
  | errorMsg (msg : String)
  | json (v : String)
deriving DecidableEq, Repr

/-- The HTTP response the proxy handler returns to its caller. -/
structure ProxyResponse where
  status : Nat
  body : ProxyBody
deriving DecidableEq, Repr

/-- Behaviour of the configured destination when the proxy forwards the
request: it may respond with a JSON body, respond with a body that fails
to parse as JSON (so `res.json()` throws), or the fetch itself may throw. -/
inductive DestOutcome where
  | jsonResp (status : Nat) (body : String)
  | nonJsonResp (status : Nat) (errMessage : String)
  | netErr (errMessage : String)
deriving DecidableEq, Repr

/-- The serverless webhook-proxy handler (`api/webhook-proxy.js`):
checks configuration, then the method, then forwards the body to the
destination with the secret header and passes the destination's status
and JSON body back; any throw inside the try block yields HTTP 500.
Returns the response together with the list of outbound calls made. -/
def handler (cfg : ProxyConfig) (req : ProxyRequest) (dest : DestOutcome) :
    ProxyResponse × List OutboundCall :=
  if jsFalsy cfg.n8nWebhookUrl || jsFalsy cfg.webhookSecret then
    (⟨500, .errorMsg "Missing environment variables: N8N_WEBHOOK_URL and/or WEBHOOK_SECRET must be set"⟩, [])
  else if req.method ≠ "POST" then
    (⟨405, .errorMsg "Method not allowed"⟩, [])
  else
    let call : OutboundCall :=
      ⟨cfg.n8nWebhookUrl.getD "", "POST", "application/json",
        cfg.webhookSecret.getD "", req.body⟩
    match dest with
    | .jsonResp s b => (⟨s, .json b⟩, [call])
    | .nonJsonResp _ m => (⟨500, .errorMsg ("Webhook proxy failed: " ++ m)⟩, [call])
    | .netErr m => (⟨500, .errorMsg ("Webhook proxy failed: " ++ m)⟩, [call])

/-- C1: whenever the destination URL or the shared secret is absent from
server configuration, the proxy handler returns HTTP 500 with the explicit
missing-configuration error payload and performs zero outbound HTTP calls. -/
theorem C1_missing_config_fails_closed (cfg : ProxyConfig) (req : ProxyRequest)
    (dest : DestOutcome)
    (h : jsFalsy cfg.n8nWebhookUrl = true ∨ jsFalsy cfg.webhookSecret = true) :
    (handler cfg req dest).1.status = 500 ∧
    (handler cfg req dest).1.body =
      .errorMsg "Missing environment variables: N8N_WEBHOOK_URL and/or WEBHOOK_SECRET must be set" ∧
    (handler cfg req dest).2 = [] := by
  rcases h with h | h <;> simp [handler, h]

/-- C1 witness: concrete run with the secret missing. -/
theorem C1_missing_config_fails_closed_witness :
    (handler ⟨some "https://n8n.example/hook", none⟩ ⟨"POST", "b"⟩ (.jsonResp 200 "ok")).1.status = 500 ∧
    (handler ⟨some "https://n8n.example/hook", none⟩ ⟨"POST", "b"⟩ (.jsonResp 200 "ok")).1.body =
      .errorMsg "Missing environment variables: N8N_WEBHOOK_URL and/or WEBHOOK_SECRET must be set" ∧
    (handler ⟨some "https://n8n.example/hook", none⟩ ⟨"POST", "b"⟩ (.jsonResp 200 "ok")).2 = [] :=
  C1_missing_config_fails_closed ⟨some "https://n8n.example/hook", none⟩ ⟨"POST", "b"⟩
    (.jsonResp 200 "ok") (Or.inr (by decide))

/-- C2 counterexample: a GET request with both configuration values absent
receives HTTP 500, not HTTP 405 — the handler consults configuration before
the method check, so the claimed 405 is not produced when configuration is
missing. -/
theorem C2_counterexample_config_checked_first :
    (handler ⟨none, none⟩ ⟨"GET", "b"⟩ (.jsonResp 200 "ok")).1.status = 500 ∧
    ¬ (handler ⟨none, none⟩ ⟨"GET", "b"⟩ (.jsonResp 200 "ok")).1.status = 405 := by
  decide

/-- C2 amended: a non-POST request receives HTTP 405 and causes no outbound
call provided both configuration values are present; when configuration is
missing the 500 missing-configuration response takes precedence (no outbound
call is made in either case). -/
theorem C2_non_post_rejected (cfg : ProxyConfig) (req : ProxyRequest)
    (dest : DestOutcome)
    (hu : jsFalsy cfg.n8nWebhookUrl = false)
    (hs : jsFalsy cfg.webhookSecret = false)
    (hm : req.method ≠ "POST") :
    (handler cfg req dest).1.status = 405 ∧
    (handler cfg req dest).1.body = .errorMsg "Method not allowed" ∧
    (handler cfg req dest).2 = [] := by
  simp [handler, hu, hs, hm]

/-- C2 amended witness: concrete GET request with full configuration. -/
theorem C2_non_post_rejected_witness :
    (handler ⟨some "https://n8n.example/hook", some "s3cret"⟩ ⟨"GET", "b"⟩ (.jsonResp 200 "ok")).1.status = 405 ∧
    (handler ⟨some "https://n8n.example/hook", some "s3cret"⟩ ⟨"GET", "b"⟩ (.jsonResp 200 "ok")).1.body =
      .errorMsg "Method not allowed" ∧
    (handler ⟨some "https://n8n.example/hook", some "s3cret"⟩ ⟨"GET", "b"⟩ (.jsonResp 200 "ok")).2 = [] :=
  C2_non_post_rejected ⟨some "https://n8n.example/hook", some "s3cret"⟩ ⟨"GET", "b"⟩
    (.jsonResp 200 "ok") (by decide) (by decide) (by decide)

/-- C5: with method POST and both configuration values present, when the
outbound POST completes with a JSON body the handler passes the
destination's status code and JSON body through verbatim, having made
exactly one outbound call carrying the configured secret header and the
request body. -/
theorem C5_success_passthrough (cfg : ProxyConfig) (req : ProxyRequest)
    (s : Nat) (b : String)
    (hu : jsFalsy cfg.n8nWebhookUrl = false)
    (hs : jsFalsy cfg.webhookSecret = false)
    (hm : req.method = "POST") :
    (handler cfg req (.jsonResp s b)).1.status = s ∧
    (handler cfg req (.jsonResp s b)).1.body = .json b ∧
    (handler cfg req (.jsonResp s b)).2 =
      [⟨cfg.n8nWebhookUrl.getD "", "POST", "application/json",
        cfg.webhookSecret.getD "", req.body⟩] := by
  simp [handler, hu, hs, hm]

/-- C5 witness: destination answers 200 with body `ok:true`; the relay
returns 200 with the same body after exactly one outbound call. -/
theorem C5_success_passthrough_witness :
    (handler ⟨some "https://n8n.example/hook", some "s3cret"⟩ ⟨"POST", "payload"⟩ (.jsonResp 200 "ok:true")).1.status = 200 ∧
    (handler ⟨some "https://n8n.example/hook", some "s3cret"⟩ ⟨"POST", "payload"⟩ (.jsonResp 200 "ok:true")).1.body = .json "ok:true" ∧
    (handler ⟨some "https://n8n.example/hook", some "s3cret"⟩ ⟨"POST", "payload"⟩ (.jsonResp 200 "ok:true")).2 =
      [⟨"https://n8n.example/hook", "POST", "application/json", "s3cret", "payload"⟩] :=
  C5_success_passthrough ⟨some "https://n8n.example/hook", some "s3cret"⟩ ⟨"POST", "payload"⟩
    200 "ok:true" (by decide) (by decide) (by decide)

/-- The hard-coded secret header value sent by the client-side webhook
code in `useDatabase.ts`. -/
def clientWebhookSecret : String := "4sD8fJk9PqZ!vT2LmN6xW"

/-- One request built by the client-side webhook code: fixed method POST,
the two headers set in the source, and the serialized body. -/
structure WebhookRequest where
  url : String
  method : String
  contentType : String
  secretHeader : String
  body : String
deriving DecidableEq, Repr

/-- The request literal repeated in both fetch calls of `postToWebhook`. -/
def mkWebhookRequest (url body : String) : WebhookRequest :=
  ⟨url, "POST", "application/json", clientWebhookSecret, body⟩

/-- Outcome of one browser `fetch`: either a completed response with a
status code, or the promise rejects (network failure). -/
inductive FetchOutcome where
  | resp (status : Nat)
  | fetchError (errMessage : String)
deriving DecidableEq, Repr

/-- `response.ok` of the Fetch API: status in the range 200..299. -/
def respOk (status : Nat) : Bool := 200 ≤ status && status ≤ 299

/-- Trace of one `postToWebhook` run: the requests issued in order, the
delays (ms) slept between attempts, and the result — the final response
status, or the message of an uncaught fetch rejection. -/
structure WebhookRun where
  requests : List WebhookRequest
  delaysMs : List Nat
  result : Except String Nat
deriving Repr

/-- `postToWebhook` from `createEmergency` in `useDatabase.ts`: first
fetch; if it completes non-ok, sleep 1000 ms and fetch once more with the
identical request, returning that second response; a rejected fetch
propagates out uncaught. The environment `env` gives the outcome of the
n-th fetch attempt. -/
def postToWebhook (env : Nat → FetchOutcome) (url body : String) : WebhookRun :=
  match env 0 with
  | .fetchError m => ⟨[mkWebhookRequest url body], [], .error m⟩
  | .resp s =>
    if respOk s then
      ⟨[mkWebhookRequest url body], [], .ok s⟩
    else
      match env 1 with
      | .fetchError m =>
        ⟨[mkWebhookRequest url body, mkWebhookRequest url body], [1000], .error m⟩
      | .resp s2 =>
        ⟨[mkWebhookRequest url body, mkWebhookRequest url body], [1000], .ok s2⟩

/-- The JSON payload `JSON.stringify(\x7b record, timestamp \x7d)` built in
`createEmergency` from the inserted row and the client timestamp. -/
def webhookPayloadBody (row ts : String) : String :=
  "\x7b\"record\":" ++ row ++ ",\"timestamp\":\"" ++ ts ++ "\"\x7d"

/-- Outcome of the database insert in `createEmergency`: the row returned
by `.select().single()`, a structured Supabase error, or a thrown error
caught by the outer catch. -/
inductive InsertOutcome where
  | ok (row : String)
  | dbError (code errMessage : String)
  | thrown (errMessage : String)
deriving DecidableEq, Repr

/-- JavaScript `String.prototype.includes`, modelled via `splitOn`:
`pat` occurs in `s` iff splitting on it yields more than one piece. -/
def jsIncludes (s pat : String) : Bool := (s.splitOn pat).length != 1

/-- The error-toast classification in `createEmergency`'s database-error
branch (offline mode, network, malformed array literal, generic). -/
def emergencyDbErrorToast (code errMessage : String) : String :=
  if code = "OFFLINE_MODE" then
    "Application is in offline mode. Please check your internet connection."
  else if jsIncludes errMessage "Network" then
    "Network error. Please check your connection and try again."
  else if jsIncludes errMessage "malformed array literal" then
    "Database error: Array formatting issue. Error details: " ++ errMessage
  else
    "Failed to save emergency report: " ++ errMessage

/-- Observable outcome of one `createEmergency` call: the value returned
to the caller, the success and error toasts shown, and the webhook
requests/delays issued. -/
structure CreateEmergencyResult where
  returned : Option String
  successToasts : List String
  errorToasts : List String
  webhookRequests : List WebhookRequest
  webhookDelaysMs : List Nat
deriving DecidableEq, Repr

/-- `createEmergency` from `useDatabase.ts`: requires a logged-in user,
inserts the emergency row, then — only if the insert succeeded and
`VITE_N8N_EMERGENCY_WEBHOOK_URL` is configured — posts the payload via
`postToWebhook` inside a try/catch; a non-ok final response or a thrown
fetch shows the non-fatal warning toast; the function then reports success
and returns the inserted row regardless of webhook outcome. -/
def createEmergency (userPresent : Bool) (insert : InsertOutcome)
    (webhookUrl : Option String) (env : Nat → FetchOutcome) (ts : String) :
    CreateEmergencyResult :=
  if !userPresent then
    ⟨none, [], ["Please log in to save emergency reports"], [], []⟩
  else
    match insert with
    | .dbError code m => ⟨none, [], [emergencyDbErrorToast code m], [], []⟩
    | .thrown m =>
      if m = "Offline mode" then
        ⟨none, [], ["Application is in offline mode. Please configure your Supabase connection."], [], []⟩
      else
        ⟨none, [], ["Failed to save emergency report: " ++ m], [], []⟩
    | .ok row =>
      match webhookUrl with
      | none => ⟨some row, ["Emergency report saved successfully"], [], [], []⟩
      | some url =>
        let run := postToWebhook env url (webhookPayloadBody row ts)
        let warn :=
          match run.result with
          | .error _ => ["Webhook delivery failed, but report saved."]
          | .ok s => if respOk s then [] else ["Webhook delivery failed, but report saved."]
        ⟨some row, ["Emergency report saved successfully"], warn,
          run.requests, run.delaysMs⟩

/-- Lifts a fetch outcome to the result `postToWebhook` reports for it. -/
def fetchOutcomeResult : FetchOutcome → Except String Nat
  | .fetchError m => .error m
  | .resp s => .ok s

/-- C3: when the first POST completes with a non-2xx response, exactly one
further POST is made after a fixed 1000 ms delay, every request issued is
the identical request (same URL, body and headers including the secret
header), exactly 2 attempts are made, and the run's result is that of the
second attempt; moreover no run of `postToWebhook` ever makes more than 2
attempts. -/
theorem C3_retry_once_on_non_2xx (env : Nat → FetchOutcome) (url body : String)
    (s : Nat) (h0 : env 0 = .resp s) (hok : respOk s = false) :
    (postToWebhook env url body).requests =
      [mkWebhookRequest url body, mkWebhookRequest url body] ∧
    (postToWebhook env url body).delaysMs = [1000] ∧
    (postToWebhook env url body).result = fetchOutcomeResult (env 1) ∧
    (∀ env' : Nat → FetchOutcome, (postToWebhook env' url body).requests.length ≤ 2) := by
  refine ⟨?_, ?_, ?_, ?_⟩
  · simp [postToWebhook, h0, hok]
    cases env 1 <;> simp
  · simp [postToWebhook, h0, hok]
    cases env 1 <;> simp
  · simp [postToWebhook, h0, hok]
    cases env 1 <;> simp [fetchOutcomeResult]
  · intro env'
    cases h : env' 0 with
    | fetchError m => simp [postToWebhook, h]
    | resp s' =>
      by_cases hok' : respOk s' = true
      · simp [postToWebhook, h, hok']
      · cases h1 : env' 1 <;>
          simp [postToWebhook, h, hok', h1]

/-- C3 witness: first attempt answers 500, second answers 200. -/
theorem C3_retry_once_on_non_2xx_witness :
    (postToWebhook (fun n => if n = 0 then .resp 500 else .resp 200) "https://n8n.example/hook" "b").requests =
      [mkWebhookRequest "https://n8n.example/hook" "b", mkWebhookRequest "https://n8n.example/hook" "b"] ∧
    (postToWebhook (fun n => if n = 0 then .resp 500 else .resp 200) "https://n8n.example/hook" "b").delaysMs = [1000] ∧
    (postToWebhook (fun n => if n = 0 then .resp 500 else .resp 200) "https://n8n.example/hook" "b").result =
      fetchOutcomeResult ((fun n => if n = 0 then FetchOutcome.resp 500 else .resp 200) 1) ∧
    (∀ env' : Nat → FetchOutcome,
      (postToWebhook env' "https://n8n.example/hook" "b").requests.length ≤ 2) :=
  C3_retry_once_on_non_2xx (fun n => if n = 0 then .resp 500 else .resp 200)
    "https://n8n.example/hook" "b" 500 (by decide) (by decide)

/-- C4: when the database insert succeeds but webhook delivery fails —
the final webhook result is a thrown fetch or a non-2xx status —
`createEmergency` still returns the inserted record, still shows the
success toast, and surfaces exactly the separate non-fatal warning toast;
no rollback of the insert exists in the flow. -/
theorem C4_webhook_failure_nonfatal (row url ts : String)
    (env : Nat → FetchOutcome)
    (hfail :
      (∃ m, (postToWebhook env url (webhookPayloadBody row ts)).result = .error m) ∨
      (∃ s, (postToWebhook env url (webhookPayloadBody row ts)).result = .ok s ∧
        respOk s = false)) :
    (createEmergency true (.ok row) (some url) env ts).returned = some row ∧
    (createEmergency true (.ok row) (some url) env ts).successToasts =
      ["Emergency report saved successfully"] ∧
    (createEmergency true (.ok row) (some url) env ts).errorToasts =
      ["Webhook delivery failed, but report saved."] := by
  rcases hfail with ⟨m, hm⟩ | ⟨s, hs, hok⟩
  · simp [createEmergency, hm]
  · simp [createEmergency, hs, hok]

/-- C4 witness: both attempts answer HTTP 500; the record is returned,
success is reported, and the warning toast is shown. -/
theorem C4_webhook_failure_nonfatal_witness :
    (createEmergency true (.ok "row") (some "https://n8n.example/hook") (fun _ => .resp 500) "ts").returned = some "row" ∧
    (createEmergency true (.ok "row") (some "https://n8n.example/hook") (fun _ => .resp 500) "ts").successToasts =
      ["Emergency report saved successfully"] ∧
    (createEmergency true (.ok "row") (some "https://n8n.example/hook") (fun _ => .resp 500) "ts").errorToasts =
      ["Webhook delivery failed, but report saved."] :=
  C4_webhook_failure_nonfatal "row" "https://n8n.example/hook" "ts" (fun _ => .resp 500)
    (Or.inr ⟨500, rfl, by decide⟩)

/-- An environment in which the first webhook fetch attempt rejects
(network failure) and any later attempt would succeed. -/
def firstFetchThrowsEnv : Nat → FetchOutcome :=
  fun n => if n = 0 then .fetchError "Failed to fetch" else .resp 200

/-- C6: evidence that the code does not retry when the first fetch throws.
With a first attempt that rejects, `postToWebhook` issues exactly one
request and sleeps no delay — the rejection propagates past the
`response.ok` retry guard — and `createEmergency` surfaces the
non-blocking warning directly, contradicting the specified
one-retry-on-network-failure behaviour (and the code's own comment
"Retry once on network failure"). -/
theorem C6_no_retry_when_fetch_throws :
    (postToWebhook firstFetchThrowsEnv "https://n8n.example/hook" "b").requests.length = 1 ∧
    (postToWebhook firstFetchThrowsEnv "https://n8n.example/hook" "b").delaysMs = [] ∧
    (postToWebhook firstFetchThrowsEnv "https://n8n.example/hook" "b").result = .error "Failed to fetch" ∧
    (createEmergency true (.ok "row") (some "https://n8n.example/hook") firstFetchThrowsEnv "ts").returned = some "row" ∧
    (createEmergency true (.ok "row") (some "https://n8n.example/hook") firstFetchThrowsEnv "ts").errorToasts =
      ["Webhook delivery failed, but report saved."] :=
  ⟨rfl, rfl, rfl, rfl, rfl⟩

/-- Trace of one Forms.tsx submit-handler run: the Data Access Layer write
functions invoked (in order), the toasts shown by the handler itself, and
whether the form was reset. Toasts emitted inside the DAL functions are
modelled there, not here. -/
structure SubmitTrace where
  writeCalls : List String
  successToasts : List String
  errorToasts : List String
  formReset : Bool
deriving DecidableEq, Repr

/-- `onReadingSubmit` in Forms.tsx: demo mode simulates success without
any DAL call, a missing `profile.user_id` shows a login error, otherwise
`createDailyReading` is invoked and the boolean it returns decides between
resetting the form and showing a failure toast. -/
def onReadingSubmit (isDemo authed dalSuccess : Bool) : SubmitTrace :=
  if isDemo then
    ⟨[], ["Demo mode: Changes not saved to database"], [], false⟩
  else if !authed then
    ⟨[], [], ["Please log in to save readings"], false⟩
  else if dalSuccess then
    ⟨["createDailyReading"], [], [], true⟩
  else
    ⟨["createDailyReading"], [],
      ["Failed to save reading. Please check your connection and try again."], false⟩

/-- `onEmergencySubmit` in Forms.tsx: demo mode simulates success without
any DAL call, a missing `profile.user_id` shows a login error, otherwise
`createEmergency` is invoked; when it returns a record and filtered
medications are present, `saveMedications` follows. The legacy direct
webhook fetch block (guarded by `N8N_EMERGENCY_WEBHOOK_URL`, not a DAL
write, its errors swallowed) is outside this trace. -/
def onEmergencySubmit (isDemo authed : Bool) (emergencyCreated : Option String)
    (hasMeds : Bool) : SubmitTrace :=
  if isDemo then
    ⟨[], ["Demo mode: Emergency report not submitted"], [], false⟩
  else if !authed then
    ⟨[], [], ["Please log in to save emergency reports"], false⟩
  else
    match emergencyCreated with
    | some _ =>
      ⟨"createEmergency" :: (if hasMeds then ["saveMedications"] else []),
        ["Emergency report submitted successfully"], [], true⟩
    | none =>
      ⟨["createEmergency"], [],
        ["Failed to save emergency report. Please check your connection and try again."], false⟩

/-- The Forms.tsx effect around `fetchExistingDates`: `getDailyReadings`
is invoked only when the demo flag is off (`if (!isDemo) fetchExistingDates()`). -/
def existingDatesEffectReads (isDemo : Bool) : List String :=
  if !isDemo then ["getDailyReadings"] else []

/-- C7 counterexample: with the demo flag set, form submission indeed
makes zero DAL write calls and shows the simulated-success message, but
the existing-dates read path issues zero `getDailyReadings` calls — it is
skipped, not executed normally as the claim states (the non-demo run
issues one). -/
theorem C7_counterexample_demo_skips_reads :
    (onReadingSubmit true true true).writeCalls = [] ∧
    (onReadingSubmit true true true).successToasts =
      ["Demo mode: Changes not saved to database"] ∧
    existingDatesEffectReads true = [] ∧
    existingDatesEffectReads true ≠ existingDatesEffectReads false := by
  decide

/-- C7 amended: with the demo flag set, both form submissions make zero
DAL write calls and show their simulated-success message, and the Forms
existing-dates read effect is also skipped (zero read calls), whatever the
authentication state or DAL outcomes. -/
theorem C7_demo_gate (authedR authedE dalSuccess hasMeds : Bool)
    (emergencyCreated : Option String) :
    (onReadingSubmit true authedR dalSuccess).writeCalls = [] ∧
    (onReadingSubmit true authedR dalSuccess).successToasts =
      ["Demo mode: Changes not saved to database"] ∧
    (onEmergencySubmit true authedE emergencyCreated hasMeds).writeCalls = [] ∧
    (onEmergencySubmit true authedE emergencyCreated hasMeds).successToasts =
      ["Demo mode: Emergency report not submitted"] ∧
    existingDatesEffectReads true = [] := by
  simp [onReadingSubmit, onEmergencySubmit, existingDatesEffectReads]

/-- `checkForDuplicateDate` in Forms.tsx: the formatted submission date is
looked up in the dates already on file. -/
def checkForDuplicateDate (existingDates : List String) (formattedDate : String) : Bool :=
  existingDates.contains formattedDate

/-- Outcome of `handleReadingSubmit`: whether the duplicate dialog was
opened, the pending data stored for the dialog, and the trace of any
direct `onReadingSubmit` run. -/
structure ReadingFlow where
  dialogShown : Bool
  pending : Option String
  trace : SubmitTrace
deriving DecidableEq, Repr

/-- The trace of a handler run that did nothing. -/
def emptyTrace : SubmitTrace := ⟨[], [], [], false⟩

/-- `handleReadingSubmit` in Forms.tsx: a duplicate date stores the values
and opens the confirmation dialog without submitting; otherwise
`onReadingSubmit` runs directly. -/
def handleReadingSubmit (isDemo authed dalSuccess : Bool)
    (existingDates : List String) (date : String) : ReadingFlow :=
  if checkForDuplicateDate existingDates date then
    ⟨true, some date, emptyTrace⟩
  else
    ⟨false, none, onReadingSubmit isDemo authed dalSuccess⟩

/-- The duplicate-dialog Continue action in Forms.tsx:
`pendingReadingData && onReadingSubmit(pendingReadingData)`. -/
def confirmDuplicateAction (isDemo authed dalSuccess : Bool) :
    Option String → SubmitTrace
  | some _ => onReadingSubmit isDemo authed dalSuccess
  | none => emptyTrace

/-- C8: a write reaches the DAL from `handleReadingSubmit` only when the
date is not on file; a duplicate date opens the confirmation dialog with
the data pending and zero writes, and the write then happens only through
the dialog's confirm action; a fresh date (outside demo mode, logged in)
is written directly with no dialog. -/
theorem C8_confirm_before_overwrite (isDemo authed dalSuccess : Bool)
    (existingDates : List String) (date : String) :
    ((handleReadingSubmit isDemo authed dalSuccess existingDates date).trace.writeCalls ≠ [] →
      checkForDuplicateDate existingDates date = false) ∧
    (checkForDuplicateDate existingDates date = true →
      handleReadingSubmit isDemo authed dalSuccess existingDates date =
        ⟨true, some date, emptyTrace⟩ ∧
      (isDemo = false → authed = true →
        (confirmDuplicateAction isDemo authed dalSuccess
          (handleReadingSubmit isDemo authed dalSuccess existingDates date).pending).writeCalls =
          ["createDailyReading"])) ∧
    (checkForDuplicateDate existingDates date = false →
      (handleReadingSubmit isDemo authed dalSuccess existingDates date).dialogShown = false ∧
      (isDemo = false → authed = true →
        (handleReadingSubmit isDemo authed dalSuccess existingDates date).trace.writeCalls =
          ["createDailyReading"])) := by
  refine ⟨?_, ?_, ?_⟩
  · intro hw
    by_contra hdup
    rw [Bool.not_eq_false] at hdup
    simp [handleReadingSubmit, hdup, emptyTrace] at hw
  · intro hdup
    refine ⟨by simp [handleReadingSubmit, hdup], ?_⟩
    intro hdemo hauth
    cases hsucc : dalSuccess <;>
      simp [handleReadingSubmit, hdup, confirmDuplicateAction, onReadingSubmit,
        hdemo, hauth, hsucc]
  · intro hfresh
    refine ⟨by simp [handleReadingSubmit, hfresh], ?_⟩
    intro hdemo hauth
    cases hsucc : dalSuccess <;>
      simp [handleReadingSubmit, hfresh, onReadingSubmit, hdemo, hauth, hsucc]

/-- C8 witness: with date 2025-01-01 on file, submitting 2025-01-01 opens
the dialog without writing and the confirm action writes; submitting
2025-01-02 writes directly with no dialog. -/
theorem C8_confirm_before_overwrite_witness :
    (handleReadingSubmit false true true ["2025-01-01"] "2025-01-01" =
      ⟨true, some "2025-01-01", emptyTrace⟩ ∧
     (confirmDuplicateAction false true true
        (handleReadingSubmit false true true ["2025-01-01"] "2025-01-01").pending).writeCalls =
        ["createDailyReading"]) ∧
    (handleReadingSubmit false true true ["2025-01-01"] "2025-01-02").dialogShown = false ∧
    (handleReadingSubmit false true true ["2025-01-01"] "2025-01-02").trace.writeCalls =
      ["createDailyReading"] :=
  ⟨⟨((C8_confirm_before_overwrite false true true ["2025-01-01"] "2025-01-01").2.1 (by decide)).1,
    ((C8_confirm_before_overwrite false true true ["2025-01-01"] "2025-01-01").2.1 (by decide)).2 rfl rfl⟩,
   ((C8_confirm_before_overwrite false true true ["2025-01-01"] "2025-01-02").2.2 (by decide)).1,
   ((C8_confirm_before_overwrite false true true ["2025-01-01"] "2025-01-02").2.2 (by decide)).2 rfl rfl⟩

/-- `handleSelect` in multi-select.tsx: `onChange([...selected, value])`
only when the value is not yet included; otherwise the selection is left
unchanged. -/
def handleSelect (selected : List String) (value : String) : List String :=
  if selected.contains value then selected else selected ++ [value]

/-- `handleRemove` in multi-select.tsx:
`onChange(selected.filter((item) => item !== value))`. -/
def handleRemove (selected : List String) (value : String) : List String :=
  selected.filter (fun item => item ≠ value)

/-- C9: on a duplicate-free selection, `handleSelect` of a present value
leaves the selection unchanged, `handleSelect` of a new value appends it
exactly once, the result stays duplicate-free; `handleRemove` removes
every occurrence of the value, keeps every other element, and also stays
duplicate-free. -/
theorem C9_multiselect_invariants (selected : List String) (value : String)
    (hnd : selected.Nodup) :
    (value ∈ selected → handleSelect selected value = selected) ∧
    (value ∉ selected → handleSelect selected value = selected ++ [value]) ∧
    (value ∉ selected → (handleSelect selected value).count value = 1) ∧
    (handleSelect selected value).Nodup ∧
    (handleRemove selected value).count value = 0 ∧
    (∀ x, x ≠ value → (x ∈ handleRemove selected value ↔ x ∈ selected)) ∧
    (handleRemove selected value).Nodup := by
  refine ⟨?_, ?_, ?_, ?_, ?_, ?_, ?_⟩
  · intro hmem
    unfold handleSelect
    rw [if_pos (List.elem_iff.mpr hmem)]
  · intro hmem
    unfold handleSelect
    rw [if_neg (fun hc => hmem (List.elem_iff.mp hc))]
  · intro hmem
    unfold handleSelect
    rw [if_neg (fun hc => hmem (List.elem_iff.mp hc))]
    simp [List.count_append, List.count_eq_zero_of_not_mem hmem]
  · by_cases hmem : value ∈ selected
    · unfold handleSelect
      rw [if_pos (List.elem_iff.mpr hmem)]
      exact hnd
    · unfold handleSelect
      rw [if_neg (fun hc => hmem (List.elem_iff.mp hc))]
      simp [List.nodup_append, hnd, hmem]
  · simp [handleRemove, List.count_eq_zero, List.mem_filter]
  · intro x hx
    simp [handleRemove, List.mem_filter, hx]
  · exact hnd.filter _

/-- C9 witness: concrete duplicate-free selection. -/
theorem C9_multiselect_invariants_witness :
    (["Dizziness", "Nausea"] : List String).Nodup ∧
    handleSelect ["Dizziness", "Nausea"] "Nausea" = ["Dizziness", "Nausea"] ∧
    (handleRemove ["Dizziness", "Nausea"] "Nausea").count "Nausea" = 0 :=
  ⟨by decide,
   (C9_multiselect_invariants ["Dizziness", "Nausea"] "Nausea" (by decide)).1 (by decide),
   (C9_multiselect_invariants ["Dizziness", "Nausea"] "Nausea" (by decide)).2.2.2.2.1⟩

/-- JavaScript `split(':')` over the character list of a string: splits at
every colon, keeping empty pieces. -/
def splitOnColon : List Char → List (List Char)
  | [] => [[]]
  | c :: rest =>
    match splitOnColon rest with
    | [] => [[]]
    | h :: t => if c = ':' then [] :: h :: t else (c :: h) :: t

/-- JS `id.split(':')` as a string-level operation. -/
def jsSplitColon (s : String) : List String :=
  (splitOnColon s.data).map String.mk

/-- One telegram contact row of the Profile form. -/
structure TelegramContact where
  handle : String
  label : String
deriving DecidableEq, Repr

/-- JS `x || ''` on a string: the empty string stays empty, anything else
passes through. -/
def jsOrEmpty (s : String) : String := if s.isEmpty then "" else s

/-- `parseTelegramIds` from the Profile page: each stored id is split on
`:`; the first piece (or the empty default) becomes the handle, the second
the label. -/
def parseTelegramIds (telegramIds : List String) : List TelegramContact :=
  telegramIds.map (fun id =>
    ⟨jsOrEmpty ((jsSplitColon id).getD 0 ""),
     jsOrEmpty ((jsSplitColon id).getD 1 "")⟩)

/-- The telegram-id formatting inside `onProfileSubmit`: each contact maps
to `handle:label` when the handle is truthy (else the empty string), and
falsy entries are filtered out. -/
def formatTelegramIds (contacts : List TelegramContact) : List String :=
  (contacts.map (fun item =>
    if item.handle.isEmpty then "" else item.handle ++ ":" ++ jsOrEmpty item.label)).filter
    (fun s => !s.isEmpty)

theorem jsOrEmpty_eq (s : String) : jsOrEmpty s = s := by
  by_cases h : s.isEmpty = true
  · simp [jsOrEmpty, h, (String.isEmpty_iff s).mp h]
  · simp [jsOrEmpty, h]

/-- A colon-free character list splits to itself alone. -/
theorem splitOnColon_no_colon (l : List Char) (h : ':' ∉ l) :
    splitOnColon l = [l] := by
  induction l with
  | nil => rfl
  | cons c rest ih =>
    have hc : c ≠ ':' := fun e => h (e ▸ List.mem_cons_self c rest)
    have hr : ':' ∉ rest := fun m => h (List.mem_cons_of_mem c m)
    simp [splitOnColon, ih hr, hc]

/-- Splitting `hd ++ ':' :: l` with colon-free `hd` and `l` yields
exactly the two pieces. -/
theorem splitOnColon_append (hd l : List Char) (hh : ':' ∉ hd) (hl : ':' ∉ l) :
    splitOnColon (hd ++ ':' :: l) = [hd, l] := by
  induction hd with
  | nil => simp [splitOnColon, splitOnColon_no_colon l hl]
  | cons c rest ih =>
    have hc : c ≠ ':' := fun e => hh (e ▸ List.mem_cons_self c rest)
    have hr : ':' ∉ rest := fun m => hh (List.mem_cons_of_mem c m)
    simp [splitOnColon, ih hr, hc]

theorem encoded_data (c : TelegramContact) :
    (c.handle ++ ":" ++ c.label).data = c.handle.data ++ ':' :: c.label.data := by
  simp [String.data_append]

/-- Parsing one well-formed `handle:label` wire string recovers the contact. -/
theorem parseTelegram_entry (c : TelegramContact)
    (hh : ':' ∉ c.handle.data) (hl : ':' ∉ c.label.data) :
    (⟨jsOrEmpty ((jsSplitColon (c.handle ++ ":" ++ c.label)).getD 0 ""),
      jsOrEmpty ((jsSplitColon (c.handle ++ ":" ++ c.label)).getD 1 "")⟩ : TelegramContact) = c := by
  unfold jsSplitColon
  rw [encoded_data, splitOnColon_append _ _ hh hl]
  simp [jsOrEmpty_eq]

theorem formatTelegramIds_cons (c : TelegramContact) (rest : List TelegramContact)
    (hne : c.handle.isEmpty = false) :
    formatTelegramIds (c :: rest) =
      (c.handle ++ ":" ++ jsOrEmpty c.label) :: formatTelegramIds rest := by
  have hne' : (c.handle ++ ":" ++ jsOrEmpty c.label).isEmpty = false := by
    cases hb : (c.handle ++ ":" ++ jsOrEmpty c.label).isEmpty
    · rfl
    · exfalso
      have he := (String.isEmpty_iff _).mp hb
      have hd := encoded_data ⟨c.handle, jsOrEmpty c.label⟩
      rw [he] at hd
      simp at hd
  unfold formatTelegramIds
  simp [hne, hne']

/-- C10: for every contact list whose handles are non-empty and whose
handles and labels contain no colon, encoding to the delimited wire
strings (as `onProfileSubmit` does) and decoding with `parseTelegramIds`
returns exactly the original handles and labels. -/
theorem C10_telegram_roundtrip (contacts : List TelegramContact)
    (h : ∀ c ∈ contacts,
      c.handle.isEmpty = false ∧ ':' ∉ c.handle.data ∧ ':' ∉ c.label.data) :
    parseTelegramIds (formatTelegramIds contacts) = contacts := by
  induction contacts with
  | nil => rfl
  | cons c rest ih =>
    obtain ⟨hne, hh, hl⟩ := h c (List.mem_cons_self c rest)
    have hrest := ih (fun x hx => h x (List.mem_cons_of_mem c hx))
    rw [formatTelegramIds_cons c rest hne, jsOrEmpty_eq]
    unfold parseTelegramIds
    rw [List.map_cons]
    unfold parseTelegramIds at hrest
    rw [hrest]
    exact congrArg (fun x => x :: rest) (parseTelegram_entry c hh hl)

/-- C10 witness: two concrete contacts, one with an empty relation label,
round-trip unchanged. -/
theorem C10_telegram_roundtrip_witness :
    (∀ c ∈ ([⟨"alice", "mom"⟩, ⟨"bob", ""⟩] : List TelegramContact),
      c.handle.isEmpty = false ∧ ':' ∉ c.handle.data ∧ ':' ∉ c.label.data) ∧
    parseTelegramIds (formatTelegramIds [⟨"alice", "mom"⟩, ⟨"bob", ""⟩]) =
      [⟨"alice", "mom"⟩, ⟨"bob", ""⟩] :=
  ⟨by decide, C10_telegram_roundtrip [⟨"alice", "mom"⟩, ⟨"bob", ""⟩] (by decide)⟩
